import Mathlib

/-
Verification development for the Grooveshark session/authentication client
(src/internet/grooveshark/groovesharkclient.{h,cpp}).

The development shallowly embeds three parts of the client:
  1. the per-reply error classification and completion logic
     (GSReply::ProcessReply, GSReply::ProcessReplyError, GSReply::Cancel,
      GSReply::SetError);
  2. the token minting routine (GSClient::CreateToken);
  3. the connection state machine built in GSClient::SetupSM, together with
     the slots that drive it (CreateSession, SessionCreated, RetrieveGSConfig,
     GSConfigRetrieved, UpdateCommunicationToken, CommunicationTokenUpdated,
     AuthenticateAsAuthorizedUser, LoggedIn, OnFault) and the request
     admission transitions (RequestTransition, DeferRequestTransition,
     CancelRequestTransition, LoginFinishedTransition).
-/

namespace Grooveshark

/-- Error codes from the GSClient::Error enum (groovesharkclient.h).
The numeric wire codes are: FetchingToken = 0, InvalidType = 1,
HttpError = 2, ParseError = 4, HttpTimeout = 6, MustBeLoggedIn = 8,
Maintenance = 10, InvalidSession = 16, InvalidToken = 256,
RateLimited = 512, InvalidClient = 1024, Cancelled = 333. -/
inductive GSError
  | fetchingToken
  | invalidType
  | httpError
  | parseError
  | httpTimeout
  | mustBeLoggedIn
  | maintenance
  | invalidSession
  | invalidToken
  | rateLimited
  | invalidClient
  | cancelled
  deriving DecidableEq

/-- QEvent type of a request: RequestEventType (user) or SysRequestEventType
(the internal bootstrap calls). -/
inductive ReqType
  | user
  | sys
  deriving DecidableEq

/-- The client-side session facts touched by reply classification:
session_, ctoken_, logged_in_ and whether ctoken_timer_ is running. -/
structure ClientState where
  session : String
  ctoken : String
  logged_in : Bool
  ctokenTimerActive : Bool
  deriving DecidableEq

/-- The mutable fields of a GSReply: has_error_, error_, error_msg_,
result_, and whether the reply watchdog timer_ is running (it is started by
setReply and stopped by Cancel). -/
structure ReplyState where
  has_error : Bool
  error : Option GSError
  error_msg : String
  result : Option String
  timerActive : Bool
  deriving DecidableEq

/-- A freshly dispatched reply: setReply has started timer_ and no error or
result is recorded yet. -/
def freshReply : ReplyState :=
  { has_error := false, error := none, error_msg := "", result := none,
    timerActive := true }

/-- GSReply::SetError: record the error code and message. -/
def setError (r : ReplyState) (e : GSError) (msg : String) : ReplyState :=
  { r with has_error := true, error := some e, error_msg := msg }

/-- Signals the classifier emits on the client (CTExpired, SessionExpired). -/
inductive ClientSignal
  | ctExpired
  | sessionExpired
  deriving DecidableEq

/-- Output of one classification pass: updated client and reply state, the
resend flag returned by ProcessReplyError, and the client signals emitted. -/
structure ClassifyOut where
  client : ClientState
  reply : ReplyState
  resend : Bool
  signals : List ClientSignal
  deriving DecidableEq

/-- GSReply::ProcessReplyError.  The fault argument is the optional
(code, message) pair read from result["fault"]; an empty fault map is none.
Wire codes: 256 = InvalidToken, 16 = InvalidSession, 0 = FetchingToken,
8 = MustBeLoggedIn; every other code falls through the switch default. -/
def processReplyError (c : ClientState) (ty : ReqType) (r : ReplyState)
    (fault : Option (Nat × String)) : ClassifyOut :=
  match fault with
  | none => { client := c, reply := r, resend := false, signals := [] }
  | some (code, msg) =>
    if code = 256 then
      -- Error_InvalidToken: resend = true; ctoken_timer_->stop(); emit CTExpired
      { client := { c with ctokenTimerActive := false }, reply := r,
        resend := true, signals := [ClientSignal.ctExpired] }
    else if code = 16 ∨ code = 0 then
      -- Error_InvalidSession / Error_FetchingToken: sys requests keep the
      -- error, user requests resend; ClearSession(); emit SessionExpired
      match ty with
      | ReqType.sys =>
        { client := { c with session := "", ctoken := "" },
          reply := { r with has_error := true }, resend := false,
          signals := [ClientSignal.sessionExpired] }
      | ReqType.user =>
        { client := { c with session := "", ctoken := "" }, reply := r,
          resend := true, signals := [ClientSignal.sessionExpired] }
    else if code = 8 then
      -- Error_MustBeLoggedIn: SetError(error, fault["message"])
      { client := c, reply := setError r GSError.mustBeLoggedIn msg,
        resend := false, signals := [] }
    else
      { client := c, reply := r, resend := false, signals := [] }

/-- A parsed response body: the optional fault map and the result payload. -/
structure Body where
  fault : Option (Nat × String)
  result : String
  deriving DecidableEq

/-- Outcome of one invocation of ProcessReply or Cancel: new states, whether
the Finished signal was emitted by this invocation, and whether the request
was re-posted to the state machine (client_->PostEvent(new ReqEvent(...))). -/
structure ReplyStep where
  client : ClientState
  reply : ReplyState
  finished : Bool
  redispatch : Bool
  signals : List ClientSignal
  deriving DecidableEq

/-- GSReply::ProcessReply.  status is the HTTP status attribute; body is the
parse result of the raw bytes (none when parsing fails).  The timer-inactive
branch yields HttpTimeout; a non-200 status yields HttpError; a parse
failure yields ParseError; otherwise ProcessReplyError classifies the fault:
on resend the request is re-posted and Finished is NOT emitted, otherwise
result_ is taken from result["result"] and Finished is emitted. -/
def processReply (c : ClientState) (ty : ReqType) (r : ReplyState)
    (status : Nat) (body : Option Body) : ReplyStep :=
  if r.timerActive = false then
    { client := c, reply := setError r GSError.httpTimeout "Http timeout",
      finished := true, redispatch := false, signals := [] }
  else if status ≠ 200 then
    { client := c,
      reply := setError r GSError.httpError "Http status code error",
      finished := true, redispatch := false, signals := [] }
  else
    match body with
    | none =>
      { client := c,
        reply := setError r GSError.parseError
          "Error while parsing Grooveshark result",
        finished := true, redispatch := false, signals := [] }
    | some b =>
      let o := processReplyError c ty r b.fault
      if o.resend then
        { client := o.client, reply := o.reply, finished := false,
          redispatch := true, signals := o.signals }
      else
        { client := o.client,
          reply := { o.reply with result := some b.result },
          finished := true, redispatch := false, signals := o.signals }

/-- GSReply::Cancel: stop timer_, SetError(Error_Cancelled), emit Finished.
There is no guard against the reply having already completed. -/
def cancelReply (c : ClientState) (r : ReplyState) : ReplyStep :=
  { client := c,
    reply := setError { r with timerActive := false } GSError.cancelled
      "Request cancelled.",
    finished := true, redispatch := false, signals := [] }

/-- An event in the lifetime of one GSReply: the network exchange completing
(ProcessReply runs with the given status and parsed body), or Cancel being
invoked (a Fault firing the connected CancelRequest slot). -/
inductive ReplyEvent
  | net (status : Nat) (body : Option Body)
  | cancel
  deriving DecidableEq

/-- Dispatch one reply event to the matching member function. -/
def replyRunOne (c : ClientState) (ty : ReqType) (r : ReplyState)
    (e : ReplyEvent) : ReplyStep :=
  match e with
  | ReplyEvent.net status body => processReply c ty r status body
  | ReplyEvent.cancel => cancelReply c r

/-- Accumulated observations over a reply lifetime: how many times Finished
was emitted and how many times the request was re-posted for resending. -/
structure LifeOut where
  client : ClientState
  reply : ReplyState
  finishedCount : Nat
  redispatchCount : Nat
  deriving DecidableEq

/-- Fold a list of reply events over one GSReply.  When a step re-posts the
request, the subsequent re-dispatch calls setReply, which restarts timer_
(timer_.stop(); timer_.start()), so the timer is active again for the next
exchange. -/
def replyRun (c : ClientState) (ty : ReqType) (r : ReplyState) :
    List ReplyEvent → LifeOut
  | [] =>
    { client := c, reply := r, finishedCount := 0, redispatchCount := 0 }
  | e :: rest =>
    let o := replyRunOne c ty r e
    let r1 := if o.redispatch then { o.reply with timerActive := true }
              else o.reply
    let tail := replyRun o.client ty r1 rest
    { client := tail.client, reply := tail.reply,
      finishedCount := (if o.finished then 1 else 0) + tail.finishedCount,
      redispatchCount :=
        (if o.redispatch then 1 else 0) + tail.redispatchCount }

/-- A generic starting client state used in concrete evaluations. -/
def client0 : ClientState :=
  { session := "SESS", ctoken := "CTOK", logged_in := true,
    ctokenTimerActive := true }

/-- Response carrying the InvalidToken fault code (256). -/
def invalidTokenResp : ReplyEvent :=
  ReplyEvent.net 200 (some { fault := some (256, "invalid token"),
                             result := "" })

/-- Successful response with a payload and no fault. -/
def successResp : ReplyEvent :=
  ReplyEvent.net 200 (some { fault := none, result := "payload" })

/-- Classification of a reply event as resend-triggering, mirroring the
resend flag of ProcessReplyError for a reply whose timer is running: a 200
response whose fault code is 256, or 16 or 0 on a user request. -/
def resendEvent (ty : ReqType) : ReplyEvent → Bool
  | ReplyEvent.net status body =>
    match body with
    | some b =>
      match b.fault with
      | some (code, _) =>
        decide (status = 200) && (decide (code = 256) ||
          (decide (code = 16 ∨ code = 0) &&
            (match ty with | ReqType.sys => false | ReqType.user => true)))
      | none => false
    | none => false
  | ReplyEvent.cancel => false

theorem replyRunOne_class (c : ClientState) (ty : ReqType) (r : ReplyState)
    (e : ReplyEvent) (ht : r.timerActive = true) :
    (replyRunOne c ty r e).finished = !(resendEvent ty e) ∧
      (replyRunOne c ty r e).redispatch = resendEvent ty e := by
  cases e with
  | cancel => simp [replyRunOne, cancelReply, resendEvent]
  | net status body =>
    by_cases hs : status = 200
    · cases body with
      | none => simp [replyRunOne, processReply, resendEvent, ht, hs]
      | some b =>
        cases hb : b.fault with
        | none =>
          simp [replyRunOne, processReply, processReplyError, resendEvent,
            ht, hs, hb]
        | some p =>
          obtain ⟨code, msg⟩ := p
          by_cases h256 : code = 256
          · simp [replyRunOne, processReply, processReplyError, resendEvent,
              ht, hs, hb, h256]
          · by_cases h16 : code = 16 ∨ code = 0
            · cases ty <;>
                simp [replyRunOne, processReply, processReplyError,
                  resendEvent, ht, hs, hb, h256, h16]
            · by_cases h8 : code = 8 <;>
                simp [replyRunOne, processReply, processReplyError,
                  resendEvent, ht, hs, hb, h256, h16, h8]
    · cases body with
      | none => simp [replyRunOne, processReply, resendEvent, ht, hs]
      | some b =>
        cases hb : b.fault with
        | none => simp [replyRunOne, processReply, resendEvent, ht, hs, hb]
        | some p =>
          obtain ⟨code, msg⟩ := p
          simp [replyRunOne, processReply, resendEvent, ht, hs, hb]

theorem replyRun_resend_chain (ty : ReqType) (term : ReplyEvent)
    (hterm : resendEvent ty term = false) :
    ∀ (pre : List ReplyEvent) (c : ClientState) (r : ReplyState),
      r.timerActive = true → (∀ e ∈ pre, resendEvent ty e = true) →
      (replyRun c ty r (pre ++ [term])).finishedCount = 1 ∧
        (replyRun c ty r (pre ++ [term])).redispatchCount = pre.length := by
  intro pre
  induction pre with
  | nil =>
    intro c r ht _
    have h := replyRunOne_class c ty r term ht
    simp [replyRun, h.1, h.2, hterm]
  | cons e rest ih =>
    intro c r ht hall
    have he : resendEvent ty e = true := hall e (by simp)
    have h := replyRunOne_class c ty r e ht
    have hrest : ∀ x ∈ rest, resendEvent ty x = true := by
      intro x hx; exact hall x (by simp [hx])
    have htail :=
      ih (replyRunOne c ty r e).client
        { (replyRunOne c ty r e).reply with timerActive := true }
        (by simp) hrest
    constructor
    · simp only [replyRun, List.cons_append]
      rw [h.1, h.2, he]
      simp [htail.1]
    · simp only [replyRun, List.cons_append]
      rw [h.2, he]
      simp [htail.2]
      try omega

/-! Token minting: GSClient::CreateToken (groovesharkclient.cpp). -/

/-- The charset of the randchar lambda in GSClient::CreateToken:
the 16 characters of "0123456789abcdef". -/
def charsetChars : List Char := ("0123456789abcdef" : String).data

/-- The randchar lambda: max_index = charset.size() - 1 and the returned
character is charset[rand() % max_index]; r stands for one rand() draw. -/
def randchar (r : Nat) : Char :=
  charsetChars.getD (r % (charsetChars.length - 1)) '0'

/-- One execution of std::generate_n(rnd.begin(), 6, randchar): six draws
from the random source turned into a 6-character string. -/
def nonceOf (draws : List Nat) : String :=
  String.mk ((draws.take 6).map randchar)

/-- The do/while loop of CreateToken: keep generating 6-character nonces
until one differs from prev_rnd.  The random source is modelled as the list
of per-attempt draw lists; none is returned when it is exhausted (the C++
loop would keep drawing). -/
def mintNonce : List (List Nat) → String → Option String
  | [], _ => none
  | a :: rest, prev =>
    if nonceOf a = prev then mintNonce rest prev else some (nonceOf a)

/-- GSClient::CreateToken.  sha1hex abstracts the external library call
QCryptographicHash::hash(..., Sha1).toHex(); ctoken is the member ctoken_.
The hashed plaintext is (QStringList() << method << ctoken_ << salt
<< rnd).join(":") and the returned token is rnd + hexhash.  The second
component of the result is the new prev_rnd. -/
def createToken (sha1hex : String → String) (ctoken : String)
    (method salt : String) (attempts : List (List Nat)) (prev : String) :
    Option (String × String) :=
  match mintNonce attempts prev with
  | none => none
  | some rnd =>
    some (rnd ++ sha1hex (String.intercalate ":" [method, ctoken, salt, rnd]),
      rnd)

theorem mintNonce_spec (as : List (List Nat)) :
    ∀ (prev n : String), mintNonce as prev = some n →
      n ≠ prev ∧ ∃ a, a ∈ as ∧ n = nonceOf a := by
  induction as with
  | nil => intro prev n h; simp [mintNonce] at h
  | cons a rest ih =>
    intro prev n h
    by_cases hp : nonceOf a = prev
    · simp only [mintNonce, if_pos hp] at h
      obtain ⟨h1, x, hx1, hx2⟩ := ih prev n h
      exact ⟨h1, x, List.mem_cons_of_mem _ hx1, hx2⟩
    · simp only [mintNonce, if_neg hp] at h
      have hn : n = nonceOf a := by
        injection h with h'
        exact h'.symm
      refine ⟨?_, a, List.mem_cons_self a rest, hn⟩
      rw [hn]
      exact hp

theorem nonceOf_length (a : List Nat) (h : 6 ≤ a.length) :
    (nonceOf a).length = 6 := by
  have : (nonceOf a).length = ((a.take 6).map randchar).length := rfl
  rw [this, List.length_map, List.length_take]
  omega

theorem createToken_spec (H : String → String)
    (ct method salt prev tok rnd : String) (as : List (List Nat))
    (h : createToken H ct method salt as prev = some (tok, rnd)) :
    mintNonce as prev = some rnd ∧
      tok = rnd ++ H (String.intercalate ":" [method, ct, salt, rnd]) := by
  cases hm : mintNonce as prev with
  | none => simp [createToken, hm] at h
  | some n =>
    simp only [createToken, hm, Option.some.injEq, Prod.mk.injEq] at h
    obtain ⟨h1, h2⟩ := h
    subst h2
    exact ⟨rfl, h1.symm⟩

/-!
The connection state machine of GSClient::SetupSM.  Leaves of the Qt state
chart: s11 (idle), s12 (ctoken expired), s21 (creating session) and s22
(updating ctoken) inside the connecting group s2, and s31 (authenticating),
s321 (not logged in) and s322 (logged in) inside the connected group s3,
whose initial state is the deep-history state s3h with default s31.  The
ready subgroup s32 contains s321 and s322 and emits Ready() on entry.
-/

/-- A leaf state of the state chart. -/
inductive Leaf
  | s11
  | s12
  | s21
  | s22
  | s31
  | s321
  | s322
  deriving DecidableEq

/-- A GSRequest as seen by the admission transitions: its method, its
auth_required flag and whether its event type is SysRequestEventType. -/
structure Req where
  method : String
  auth_required : Bool
  sys : Bool
  deriving DecidableEq

/-- Events fed to the machine: ReqEvents and the signals the transitions of
SetupSM listen to (Ok, Fault, CTExpired, SessionExpired, the ctoken timer
timeout, and LoginFinished(bool)). -/
inductive Ev
  | req (r : Req)
  | okSig
  | faultSig
  | ctExpiredSig
  | sessionExpiredSig
  | timerTimeout
  | loginFinished (success : Bool)
  deriving DecidableEq

/-- The machine state: current leaf, the deep-history slot of s3, the
deferral queue (requests currently connected Ready -> PostEvent), the
dispatch trace (makeRequest calls, in order), the cancellation trace
(requests completed through GSRequest::CancelRequest), and the session
facts owned by GSClient. -/
structure M where
  leaf : Leaf
  hist : Option Leaf
  deferredQ : List Req
  dispatched : List Req
  cancelled : List Req
  session : String
  ctoken : String
  user_id : String
  logged_in : Bool
  country : String
  ctokenTimerActive : Bool
  deriving DecidableEq

/-- The request posted by GSClient::CreateSession. -/
def initiateSessionReq : Req :=
  { method := "initiateSession", auth_required := false, sys := true }

/-- The request posted by GSClient::RetrieveGSConfig. -/
def getGSConfigReq : Req :=
  { method := "getGSConfig", auth_required := false, sys := true }

/-- The request posted by GSClient::UpdateCommunicationToken (its secretKey
parameter, an MD5 of the session id, never influences admission and is not
recorded in the trace). -/
def getCommunicationTokenReq : Req :=
  { method := "getCommunicationToken", auth_required := false, sys := true }

/-- The request posted by GSClient::AuthenticateAsAuthorizedUser; note it is
issued with auth_required = false and the ordinary RequestEventType. -/
def authenticateReq : Req :=
  { method := "authenticateAsAuthorizedUser", auth_required := false,
    sys := false }

/-- RequestTransition::onTransition: client_->makeRequest(request). -/
def dispatch (m : M) (r : Req) : M :=
  { m with dispatched := m.dispatched ++ [r] }

/-- DeferRequestTransition::onTransition: SysRequestEventType requests are
dispatched immediately, other requests are connected Ready -> PostEvent,
i.e. appended to the deferral queue. -/
def deferOrDispatch (m : M) (r : Req) : M :=
  if r.sys then dispatch m r
  else { m with deferredQ := m.deferredQ ++ [r] }

/-- Whether a leaf belongs to the connected group s3. -/
def inS3 : Leaf → Bool
  | Leaf.s31 => true
  | Leaf.s321 => true
  | Leaf.s322 => true
  | _ => false

/-- Whether a leaf belongs to the connecting group s2. -/
def inS2 : Leaf → Bool
  | Leaf.s21 => true
  | Leaf.s22 => true
  | _ => false

/-- Entering the ready subgroup s32 emits Ready(): every request in the
deferral queue re-posts its ReqEvent (GSRequest::PostEvent), in FIFO order.
In the source the Ready connection of a request lives until the request
object is destroyed after its completion; the queue is cleared here because
a drained request is dispatched or cancelled before Ready can fire again. -/
def fireReady (m : M) : M × List Ev :=
  ({ m with deferredQ := [] }, m.deferredQ.map Ev.req)

/-- Entering s21 runs GSClient::CreateSession, which unconditionally posts
the initiateSession system request. -/
def enterS21 (m : M) : M × List Ev :=
  ({ m with leaf := Leaf.s21 }, [Ev.req initiateSessionReq])

/-- Entering s22 runs GSClient::UpdateCommunicationToken, which posts the
getCommunicationToken system request. -/
def enterS22 (m : M) : M × List Ev :=
  ({ m with leaf := Leaf.s22 }, [Ev.req getCommunicationTokenReq])

/-- Entering s31 runs GSClient::AuthenticateAsAuthorizedUser: with an empty
user_id_ it emits LoginFinished(false), otherwise it posts the
authenticateAsAuthorizedUser request. -/
def enterS31 (m : M) : M × List Ev :=
  if m.user_id = "" then
    ({ m with leaf := Leaf.s31 }, [Ev.loginFinished false])
  else
    ({ m with leaf := Leaf.s31 }, [Ev.req authenticateReq])

/-- Entering the connected group s3 goes through the deep-history state s3h:
the last recorded sub-state is restored, defaulting to s31.  Restoring s321
or s322 enters the ready subgroup s32, which fires Ready(). -/
def enterS3 (m : M) : M × List Ev :=
  match m.hist with
  | some Leaf.s321 => fireReady { m with leaf := Leaf.s321 }
  | some Leaf.s322 => fireReady { m with leaf := Leaf.s322 }
  | _ => enterS31 m

/-- Exiting the connected group records the active sub-state in the
deep-history state s3h. -/
def exitS3 (m : M) : M :=
  if inS3 m.leaf then { m with hist := some m.leaf } else m

/-- One transition of the machine on one event, returning the new state and
the events posted while transitioning (entry actions and drained deferrals).
Transition selection follows Qt: the innermost active state with an enabled
transition wins. -/
def step (m : M) (e : Ev) : M × List Ev :=
  match e with
  | Ev.req r =>
    match m.leaf with
    | Leaf.s11 => enterS21 (deferOrDispatch m r)
    | Leaf.s12 => enterS22 (deferOrDispatch m r)
    | Leaf.s21 => (deferOrDispatch m r, [])
    | Leaf.s22 => (deferOrDispatch m r, [])
    | Leaf.s31 =>
      if r.auth_required then (deferOrDispatch m r, [])
      else (dispatch m r, [])
    | Leaf.s321 =>
      if r.auth_required then
        ({ m with cancelled := m.cancelled ++ [r] }, [])
      else (dispatch m r, [])
    | Leaf.s322 => (dispatch m r, [])
  | Ev.okSig =>
    match m.leaf with
    | Leaf.s21 => enterS22 m
    | Leaf.s22 => enterS3 m
    | _ => (m, [])
  | Ev.faultSig =>
    let m1 := { m with cancelled := m.cancelled ++ m.deferredQ,
                       deferredQ := [] }
    if inS2 m1.leaf then ({ m1 with leaf := Leaf.s11 }, []) else (m1, [])
  | Ev.ctExpiredSig =>
    if inS3 m.leaf then ({ exitS3 m with leaf := Leaf.s12 }, [])
    else (m, [])
  | Ev.timerTimeout =>
    if m.ctokenTimerActive then
      let m1 := { m with ctokenTimerActive := false }
      if inS3 m1.leaf then ({ exitS3 m1 with leaf := Leaf.s12 }, [])
      else (m1, [])
    else (m, [])
  | Ev.sessionExpiredSig =>
    if inS3 m.leaf then ({ exitS3 m with leaf := Leaf.s11 }, [])
    else (m, [])
  | Ev.loginFinished b =>
    match m.leaf, b with
    | Leaf.s31, true => fireReady { m with leaf := Leaf.s322 }
    | Leaf.s31, false => fireReady { m with leaf := Leaf.s321 }
    | Leaf.s321, true => ({ m with leaf := Leaf.s322 }, [])
    | Leaf.s322, false => ({ m with leaf := Leaf.s321 }, [])
    | _, _ => (m, [])

/-- Process a queue of events, appending newly posted events at the back
(QStateMachine::postEvent).  The fuel bounds the number of processed
events. -/
def pump : Nat → M → List Ev → M
  | _, m, [] => m
  | 0, m, _ => m
  | Nat.succ fuel, m, e :: rest =>
    let o := step m e
    pump fuel o.1 (rest ++ o.2)

/-- External stimuli driving the machine: an application call submission
(GSClient::Request with RequestEventType), the completion of a dispatched
bootstrap call (the reply slot connected to its Finished signal runs), or
the ctoken freshness timer firing. -/
inductive Stim
  | submit (method : String) (auth_required : Bool)
  | net (method : String) (ok : Bool) (payload : String)
  | ctimerFire
  deriving DecidableEq

/-- The slot reacting to the completion of a dispatched bootstrap call.
SessionCreated stores the session id and runs RetrieveGSConfig;
GSConfigRetrieved stores the country and emits Ok; CommunicationTokenUpdated
stores the token, starts ctoken_timer_ and emits Ok; each of them emits
Fault on a failed reply.  LoggedIn reads userID from the result (0 on a
failed or rejected login) and emits LoginFinished accordingly.  Domain
calls have no slot in the client. -/
def netFx (m : M) (method : String) (ok : Bool) (payload : String) :
    M × List Ev :=
  if method = "initiateSession" then
    if ok then ({ m with session := payload }, [Ev.req getGSConfigReq])
    else (m, [Ev.faultSig])
  else if method = "getGSConfig" then
    if ok then ({ m with country := payload }, [Ev.okSig])
    else (m, [Ev.faultSig])
  else if method = "getCommunicationToken" then
    if ok then
      ({ m with ctoken := payload, ctokenTimerActive := true }, [Ev.okSig])
    else (m, [Ev.faultSig])
  else if method = "authenticateAsAuthorizedUser" ∨
      method = "authenticateUser" then
    if ok ∧ payload ≠ "0" ∧ payload ≠ "" then
      ({ m with user_id := payload, logged_in := true },
        [Ev.loginFinished true])
    else ({ m with logged_in := false }, [Ev.loginFinished false])
  else (m, [])

/-- Run one external stimulus to quiescence. -/
def runStim (m : M) (s : Stim) : M :=
  match s with
  | Stim.submit method auth =>
    pump 32 m [Ev.req { method := method, auth_required := auth,
                        sys := false }]
  | Stim.net method ok payload =>
    let o := netFx m method ok payload
    pump 32 o.1 o.2
  | Stim.ctimerFire => pump 32 m [Ev.timerTimeout]

/-- Run a list of external stimuli. -/
def runStims (m : M) : List Stim → M
  | [] => m
  | s :: rest => runStims (runStim m s) rest

/-- The state after the GSClient constructor: sessionid and userID read from
QSettings, logged_in_ set iff the user id is non-empty, the machine started
in s11. -/
def initClient (savedSession savedUser : String) : M :=
  { leaf := Leaf.s11, hist := none, deferredQ := [], dispatched := [],
    cancelled := [], session := savedSession, ctoken := "",
    user_id := savedUser, logged_in := savedUser ≠ "", country := "",
    ctokenTimerActive := false }

/-- Build a machine state from its fields (constructor shorthand used to
quantify over all session facts in the state-machine theorems). -/
def mkM (leaf : Leaf) (hist : Option Leaf) (dq disp canc : List Req)
    (sess ct uid : String) (li : Bool) (co : String) (ta : Bool) : M :=
  { leaf := leaf, hist := hist, deferredQ := dq, dispatched := disp,
    cancelled := canc, session := sess, ctoken := ct, user_id := uid,
    logged_in := li, country := co, ctokenTimerActive := ta }

/-- The C4 scenario: a non-auth search call submitted while Idle with no
cached session and no cached user, followed by the successful completion of
each dispatched bootstrap call in turn. -/
def searchScenEnd : M :=
  runStims (initClient "" "")
    [Stim.submit "getResultsFromSearch" false,
     Stim.net "initiateSession" true "SESSID",
     Stim.net "getGSConfig" true "COUNTRY",
     Stim.net "getCommunicationToken" true "CTOKEN"]

/-- C1: evaluation at the failing input.  A user call whose response carries
the InvalidToken fault code (256) on both its original and its resent
attempt is re-posted for resending on BOTH failures: over the two
classifications the request is re-dispatched twice and Finished never
fires, so the second identical failure is not surfaced to the caller and a
further automatic resend occurs.  The guard field GSReply::resending_ is
initialized to false but never read or written, so no single-resend bound
exists in the code. -/
theorem c1_second_invalid_token_redispatches :
    (replyRun client0 ReqType.user freshReply
        [invalidTokenResp, invalidTokenResp]).redispatchCount = 2 ∧
      (replyRun client0 ReqType.user freshReply
        [invalidTokenResp, invalidTokenResp]).finishedCount = 0 := by
  decide

/-- C2: counterexample.  A user call that completes successfully and whose
Fault -> CancelRequest connection then fires (a Fault raised after the call
has already completed) emits the Finished signal twice, refuting the
fires-exactly-once claim. -/
theorem c2_finished_twice_after_cancel :
    (replyRun client0 ReqType.user freshReply
        [successResp, ReplyEvent.cancel]).finishedCount = 2 ∧
      (replyRun client0 ReqType.user freshReply
        [successResp, ReplyEvent.cancel]).finishedCount ≠ 1 := by
  decide

/-- C2 (amended): the Finished signal fires exactly once over every call
lifetime consisting of any number of resend-classified responses followed
by one terminal outcome (success, terminal error, timeout or cancellation);
resent attempts emit no Finished.  Exactly-once does not extend to a
Fault-driven Cancel arriving after the call has already completed, which
emits Finished again. -/
theorem c2_finished_once_until_terminal (ty : ReqType) (c : ClientState)
    (pre : List ReplyEvent) (term : ReplyEvent)
    (hpre : ∀ e ∈ pre, resendEvent ty e = true)
    (hterm : resendEvent ty term = false) :
    (replyRun c ty freshReply (pre ++ [term])).finishedCount = 1 :=
  (replyRun_resend_chain ty term hterm pre c freshReply rfl hpre).1

/-- C2 witness: one InvalidToken resend followed by a successful completion
emits Finished exactly once. -/
theorem c2_finished_once_witness :
    (∀ e ∈ [invalidTokenResp], resendEvent ReqType.user e = true) ∧
      resendEvent ReqType.user successResp = false ∧
      (replyRun client0 ReqType.user freshReply
        ([invalidTokenResp] ++ [successResp])).finishedCount = 1 :=
  ⟨by decide, by decide,
    c2_finished_once_until_terminal ReqType.user client0 [invalidTokenResp]
      successResp (by decide) (by decide)⟩

/-- C3: counterexample.  With a non-empty stored session id ("CACHED"), a
user call submitted while Idle still enters CreatingSession and dispatches
the session-creation call initiateSession — the claimed skip to
UpdatingToken does not happen. -/
theorem c3_session_call_despite_cached_session :
    (initClient "CACHED" "").session ≠ "" ∧
      (runStim (initClient "CACHED" "")
          (Stim.submit "getResultsFromSearch" false)).dispatched.map
        Req.method = ["initiateSession"] ∧
      (runStim (initClient "CACHED" "")
          (Stim.submit "getResultsFromSearch" false)).leaf = Leaf.s21 := by
  decide

/-- C3 (amended): entering CreatingSession always issues the
session-creation call: whatever the stored session id, a user call
submitted while Idle defers the call, moves the machine to s21 and
dispatches initiateSession; there is no skip to UpdatingToken on a
non-empty session id. -/
theorem c3_session_call_always_issued (hist0 : Option Leaf)
    (dq disp canc : List Req) (sess ct uid co : String) (li ta : Bool)
    (method : String) (auth : Bool) :
    (pump 2 (mkM Leaf.s11 hist0 dq disp canc sess ct uid li co ta)
        [Ev.req { method := method, auth_required := auth, sys := false }]
      ).dispatched = disp ++ [initiateSessionReq] ∧
    (pump 2 (mkM Leaf.s11 hist0 dq disp canc sess ct uid li co ta)
        [Ev.req { method := method, auth_required := auth, sys := false }]
      ).leaf = Leaf.s21 ∧
    (pump 2 (mkM Leaf.s11 hist0 dq disp canc sess ct uid li co ta)
        [Ev.req { method := method, auth_required := auth, sys := false }]
      ).deferredQ =
      dq ++ [{ method := method, auth_required := auth, sys := false }] :=
  ⟨rfl, rfl, rfl⟩

/-- C4: counterexample.  In the C4 scenario the dispatched call sequence is
initiateSession, getGSConfig, getCommunicationToken, getResultsFromSearch:
the configuration call getGSConfig is dispatched between the
session-creation call and the token-refresh call, so the dispatched
sequence is not the claimed three-call sequence. -/
theorem c4_dispatch_with_config_call :
    searchScenEnd.dispatched.map Req.method =
        ["initiateSession", "getGSConfig", "getCommunicationToken",
         "getResultsFromSearch"] ∧
      searchScenEnd.dispatched.map Req.method ≠
        ["initiateSession", "getCommunicationToken",
         "getResultsFromSearch"] := by
  decide

/-- C4 (amended): in the C4 scenario the dispatch order is the
session-creation call, then the configuration call getGSConfig, then the
token-refresh call, then the submitted search call; the stored
communication token is then the refreshed one, and every token minted from
it for the search call header (htmlshark preset, salt nuggetsOfBaller) is a
non-empty string. -/
theorem c4_dispatch_sequence_amended :
    searchScenEnd.dispatched.map Req.method =
        ["initiateSession", "getGSConfig", "getCommunicationToken",
         "getResultsFromSearch"] ∧
      searchScenEnd.ctoken = "CTOKEN" ∧
      ∀ (H : String → String) (as : List (List Nat)) (prev tok rnd : String),
        (∀ a ∈ as, 6 ≤ a.length) →
        createToken H searchScenEnd.ctoken "getResultsFromSearch"
          "nuggetsOfBaller" as prev = some (tok, rnd) →
        tok ≠ "" := by
  refine ⟨by decide, by decide, ?_⟩
  intro H as prev tok rnd h6 hct
  obtain ⟨hm, htok⟩ := createToken_spec H searchScenEnd.ctoken
    "getResultsFromSearch" "nuggetsOfBaller" prev tok rnd as hct
  obtain ⟨-, a, ha, hna⟩ := mintNonce_spec as prev rnd hm
  intro hemp
  rw [hemp] at htok
  generalize H (String.intercalate ":"
    ["getResultsFromSearch", searchScenEnd.ctoken, "nuggetsOfBaller",
     rnd]) = dg at htok
  have hd : ("" : String).data = (rnd ++ dg).data :=
    congrArg String.data htok
  have hsplit : (rnd ++ dg).data = rnd.data ++ dg.data := rfl
  have hlen := congrArg List.length hd
  rw [hsplit, List.length_append] at hlen
  have h6a : rnd.data.length = 6 := by
    have hr : rnd.length = 6 := by
      rw [hna]
      exact nonceOf_length a (h6 a ha)
    exact hr
  have hds : ("" : String).data.length = 0 := rfl
  rw [hds] at hlen
  omega

/-- C4 witness: a concrete mint from the scenario token is non-empty. -/
theorem c4_token_witness :
    (∀ a ∈ [[0, 1, 2, 3, 4, 5]], 6 ≤ List.length a) ∧
      ("012345getResultsFromSearch:CTOKEN:nuggetsOfBaller:012345" : String)
        ≠ "" :=
  ⟨by decide,
    c4_dispatch_sequence_amended.2.2 (fun s => s) [[0, 1, 2, 3, 4, 5]] ""
      "012345getResultsFromSearch:CTOKEN:nuggetsOfBaller:012345" "012345"
      (by decide) (by decide)⟩

/-- C5: when the ctoken freshness timer fires in Ready-LoggedIn (s322), the
machine leaves the connected group for s12, recording s322 in deep history;
a user call submitted afterwards is deferred while the token-refresh call
is dispatched; on refresh success the connected group is re-entered through
deep history directly in Ready-LoggedIn, the deferred call is dispatched,
and no authentication call is issued anywhere in the run (the dispatch
trace grows only by the token refresh and the submitted call). -/
theorem c5_token_expiry_resumes_logged_in (hist0 : Option Leaf)
    (disp canc : List Req) (sess ct uid co : String) (li : Bool)
    (method : String) (auth : Bool) (tok : String) :
    (runStim (mkM Leaf.s322 hist0 [] disp canc sess ct uid li co true)
        Stim.ctimerFire).leaf = Leaf.s12 ∧
    (runStim (mkM Leaf.s322 hist0 [] disp canc sess ct uid li co true)
        Stim.ctimerFire).hist = some Leaf.s322 ∧
    (pump 32 (runStim (mkM Leaf.s322 hist0 [] disp canc sess ct uid li co
        true) Stim.ctimerFire)
      [Ev.req { method := method, auth_required := auth, sys := false }]
      ).leaf = Leaf.s22 ∧
    (pump 32 (runStim (mkM Leaf.s322 hist0 [] disp canc sess ct uid li co
        true) Stim.ctimerFire)
      [Ev.req { method := method, auth_required := auth, sys := false }]
      ).deferredQ =
      [{ method := method, auth_required := auth, sys := false }] ∧
    (pump 32 (runStim (mkM Leaf.s322 hist0 [] disp canc sess ct uid li co
        true) Stim.ctimerFire)
      [Ev.req { method := method, auth_required := auth, sys := false }]
      ).dispatched = disp ++ [getCommunicationTokenReq] ∧
    (runStim (pump 32 (runStim (mkM Leaf.s322 hist0 [] disp canc sess ct
        uid li co true) Stim.ctimerFire)
        [Ev.req { method := method, auth_required := auth, sys := false }])
      (Stim.net "getCommunicationToken" true tok)).leaf = Leaf.s322 ∧
    (runStim (pump 32 (runStim (mkM Leaf.s322 hist0 [] disp canc sess ct
        uid li co true) Stim.ctimerFire)
        [Ev.req { method := method, auth_required := auth, sys := false }])
      (Stim.net "getCommunicationToken" true tok)).dispatched =
      disp ++ [getCommunicationTokenReq] ++
        [{ method := method, auth_required := auth, sys := false }] :=
  ⟨rfl, rfl, rfl, rfl, rfl, rfl, rfl⟩

/-- C6: a call with auth_required = true submitted while the machine is in
Ready-NotLoggedIn (s321) is cancelled on the spot: the machine state only
gains the request in the cancellation trace (in particular nothing is
dispatched and the state does not change otherwise), no event is posted,
and GSReply::Cancel completes the reply with the Cancelled error and emits
Finished. -/
theorem c6_auth_call_cancelled_in_not_logged_in (hist0 : Option Leaf)
    (dq disp canc : List Req) (sess ct uid co : String) (li ta : Bool)
    (method : String) (rsys : Bool) :
    (step (mkM Leaf.s321 hist0 dq disp canc sess ct uid li co ta)
        (Ev.req { method := method, auth_required := true, sys := rsys })).1
      = mkM Leaf.s321 hist0 dq disp
        (canc ++ [{ method := method, auth_required := true, sys := rsys }])
        sess ct uid li co ta ∧
    (step (mkM Leaf.s321 hist0 dq disp canc sess ct uid li co ta)
        (Ev.req { method := method, auth_required := true, sys := rsys })).2
      = [] ∧
    (∀ (c : ClientState) (rs : ReplyState),
      (cancelReply c rs).finished = true ∧
        (cancelReply c rs).reply.has_error = true ∧
        (cancelReply c rs).reply.error = some GSError.cancelled) :=
  ⟨rfl, rfl, fun _ _ => ⟨rfl, rfl, rfl⟩⟩

/-- C7: a Fault raised from either sub-state of Connecting (s21 or s22)
drives the machine back to Idle (s11) and cancels every request held in the
deferral queue: each of them is appended to the cancellation trace (each
one completing with the Cancelled error and a Finished notification through
GSReply::Cancel), the queue is left empty, and the dispatch trace is
unchanged. -/
theorem c7_fault_cancels_deferred_queue (hist0 : Option Leaf)
    (dq disp canc : List Req) (sess ct uid co : String) (li ta : Bool) :
    (step (mkM Leaf.s21 hist0 dq disp canc sess ct uid li co ta)
        Ev.faultSig).1
      = mkM Leaf.s11 hist0 [] disp (canc ++ dq) sess ct uid li co ta ∧
    (step (mkM Leaf.s21 hist0 dq disp canc sess ct uid li co ta)
        Ev.faultSig).2 = [] ∧
    (step (mkM Leaf.s22 hist0 dq disp canc sess ct uid li co ta)
        Ev.faultSig).1
      = mkM Leaf.s11 hist0 [] disp (canc ++ dq) sess ct uid li co ta ∧
    (step (mkM Leaf.s22 hist0 dq disp canc sess ct uid li co ta)
        Ev.faultSig).2 = [] ∧
    (∀ (c : ClientState) (rs : ReplyState),
      (cancelReply c rs).finished = true ∧
        (cancelReply c rs).reply.error = some GSError.cancelled) :=
  ⟨rfl, rfl, rfl, rfl, fun _ _ => ⟨rfl, rfl⟩⟩

/-- C8: counterexample.  On a completed call carrying the
"must be logged in" fault (code 8), the reply fails with MustBeLoggedIn and
is not resent, but the client's logged-in flag is NOT cleared: starting
from a logged-in client it is still set afterwards. -/
theorem c8_logged_in_flag_not_cleared :
    client0.logged_in = true ∧
      (processReply client0 ReqType.user freshReply 200
          (some { fault := some (8, "must be logged in"), result := "" })
        ).client.logged_in = true ∧
      (processReply client0 ReqType.user freshReply 200
          (some { fault := some (8, "must be logged in"), result := "" })
        ).reply.error = some GSError.mustBeLoggedIn ∧
      (processReply client0 ReqType.user freshReply 200
          (some { fault := some (8, "must be logged in"), result := "" })
        ).redispatch = false := by
  decide

/-- C8 (amended): a completed call whose response carries fault code 8
("must be logged in") fails with the MustBeLoggedIn error and the fault
message, Finished is emitted, the call is never automatically resent, and
the whole client state — in particular the logged-in flag — is left
unchanged (the flag is cleared only by Logout or a failed login). -/
theorem c8_must_be_logged_in_terminal (c : ClientState) (ty : ReqType)
    (msg res : String) :
    (processReply c ty freshReply 200
        (some { fault := some (8, msg), result := res })).reply.has_error
      = true ∧
    (processReply c ty freshReply 200
        (some { fault := some (8, msg), result := res })).reply.error
      = some GSError.mustBeLoggedIn ∧
    (processReply c ty freshReply 200
        (some { fault := some (8, msg), result := res })).finished = true ∧
    (processReply c ty freshReply 200
        (some { fault := some (8, msg), result := res })).redispatch
      = false ∧
    (processReply c ty freshReply 200
        (some { fault := some (8, msg), result := res })).client = c :=
  ⟨rfl, rfl, rfl, rfl, rfl⟩

/-- C9: tokens minted by CreateToken have the shape
nonce ++ sha1hex(method:communication_token:salt:nonce) with a 6-character
nonce (given each attempt draws at least 6 random values); two back-to-back
mints in the same process yield different nonces because the second mint is
seeded with the first nonce as prev_rnd; and the digest half is a pure
function of (method, communication token, salt, nonce): any mint ending on
the same nonce yields the identical token. -/
theorem c9_token_mint (H : String → String)
    (ct method salt prev prev2 : String) (as bs cs : List (List Nat))
    (tok1 rnd1 tok2 rnd2 tok3 rnd3 : String)
    (h6 : ∀ a ∈ as, 6 ≤ a.length)
    (h1 : createToken H ct method salt as prev = some (tok1, rnd1))
    (h2 : createToken H ct method salt bs rnd1 = some (tok2, rnd2))
    (h3 : createToken H ct method salt cs prev2 = some (tok3, rnd3))
    (heq : rnd3 = rnd1) :
    tok1 = rnd1 ++ H (String.intercalate ":" [method, ct, salt, rnd1]) ∧
      rnd1.length = 6 ∧ rnd2 ≠ rnd1 ∧ tok3 = tok1 := by
  obtain ⟨hm1, htok1⟩ :=
    createToken_spec H ct method salt prev tok1 rnd1 as h1
  obtain ⟨hm2, htok2⟩ :=
    createToken_spec H ct method salt rnd1 tok2 rnd2 bs h2
  obtain ⟨hm3, htok3⟩ :=
    createToken_spec H ct method salt prev2 tok3 rnd3 cs h3
  obtain ⟨hne1, a, ha, hna⟩ := mintNonce_spec as prev rnd1 hm1
  obtain ⟨hne2, -⟩ := mintNonce_spec bs rnd1 rnd2 hm2
  refine ⟨htok1, ?_, hne2, ?_⟩
  · rw [hna]
    exact nonceOf_length a (h6 a ha)
  · rw [htok3, heq, ← htok1]

/-- C9 witness: two concrete back-to-back mints with the identity standing
in for the hash library. -/
theorem c9_token_mint_witness :
    (∀ a ∈ [[0, 1, 2, 3, 4, 5]], 6 ≤ List.length a) ∧
      (("012345m:T:s:012345" : String) =
          "012345" ++ (fun s => s)
            (String.intercalate ":" ["m", "T", "s", "012345"]) ∧
        ("012345" : String).length = 6 ∧
        ("6789ab" : String) ≠ "012345" ∧
        ("012345m:T:s:012345" : String) = "012345m:T:s:012345") :=
  ⟨by decide,
    c9_token_mint (fun s => s) "T" "m" "s" "" "zz" [[0, 1, 2, 3, 4, 5]]
      [[0, 1, 2, 3, 4, 5], [6, 7, 8, 9, 10, 11]] [[0, 1, 2, 3, 4, 5]]
      "012345m:T:s:012345" "012345" "6789abm:T:s:6789ab" "6789ab"
      "012345m:T:s:012345" "012345" (by decide) (by decide) (by decide)
      (by decide) rfl⟩

/-- C10: every character of a nonce produced by the CreateToken retry loop
lies in the 15-character set "0123456789abcde" and is never the digit f,
because randchar indexes the 16-character charset modulo
charset.size() - 1 = 15. -/
theorem c10_nonce_charset (as : List (List Nat)) (prev rnd : String)
    (h : mintNonce as prev = some rnd) :
    ∀ c ∈ rnd.data, c ∈ ("0123456789abcde" : String).data ∧ c ≠ 'f' := by
  obtain ⟨-, a, -, hna⟩ := mintNonce_spec as prev rnd h
  subst hna
  intro c hc
  have hdata : (nonceOf a).data = (a.take 6).map randchar := rfl
  rw [hdata] at hc
  obtain ⟨r, -, hr⟩ := List.mem_map.mp hc
  subst hr
  have hlt : r % (charsetChars.length - 1) < 15 := by
    have h15 : charsetChars.length - 1 = 15 := by decide
    rw [h15]
    exact Nat.mod_lt _ (by decide)
  have key : ∀ i, i < 15 →
      charsetChars.getD i '0' ∈ ("0123456789abcde" : String).data ∧
        charsetChars.getD i '0' ≠ 'f' := by decide
  exact key _ hlt

/-- C10 witness: a concrete mint whose nonce characters all avoid f. -/
theorem c10_nonce_charset_witness :
    mintNonce [[0, 1, 2, 3, 4, 5]] "" = some "012345" ∧
      ('0' ∈ ("0123456789abcde" : String).data ∧ '0' ≠ 'f') :=
  ⟨by decide,
    c10_nonce_charset [[0, 1, 2, 3, 4, 5]] "" "012345" (by decide) '0'
      (by decide)⟩

end Grooveshark
